import Mathlib

/-
Verification of src/calendar_syncer.py: a script that fetches Clockify time
entries over HTTP, locates a CalDAV calendar by name, and writes one iCalendar
event per entry.

The embedding below translates the script function by function:
  * `fetch_time_entries` (lines 20-26): the HTTP request and body parse are
    modelled by a `FetchOutcome` input (a request fault, or a response carrying
    a status and an optionally parseable JSON body); a non-success status is
    never inspected, exactly as `requests` does not raise on one.
  * `get_calendar` (lines 29-47): the case-insensitive linear scan over the
    calendar names listed by the CalDAV principal.
  * `add_entries_to_calendar` (lines 50-76): per entry, parse
    entry[timeInterval][start] and [end] with strptime format
    %Y-%m-%dT%H:%M:%SZ, build the event (summary from entry.get, dtstart and
    dtend converted from UTC to the configured timezone, dtstamp from
    datetime.now(), uid from entry[id]), save it, then log one info line whose
    f-string reads entry[description] by subscript.
  * `main` (lines 79-95): fetch, locate, and either write plus a summary log
    line, or log the not-found error.
Python dynamic faults (KeyError, TypeError, ValueError, AttributeError, a
raising save) are explicit `Fault` values; a fault stops the run where the
exception would propagate. Timestamps are modelled as proleptic-Gregorian
civil datetimes with exact day arithmetic; the Europe/Rome rule (the only
timezone the script passes to pytz) is UTC+1, and UTC+2 between the last
Sunday of March 01:00 UTC and the last Sunday of October 01:00 UTC, the tz
database rule for the years the script handles. Python str.lower is modelled
on ASCII letters, which covers the calendar names involved.
`datetime.now()` returns the system-local wall clock, so the environment
carries both the true UTC instant (`utcNow`) and that wall clock
(`nowLocal`); the script only ever reads `nowLocal`.
-/

namespace CalendarSyncer

/-- Civil datetime (proleptic Gregorian), the model of a naive
Python `datetime`. -/
structure DateTime where
  year : Nat
  month : Nat
  day : Nat
  hour : Nat
  minute : Nat
  second : Nat
deriving DecidableEq

def isLeap (y : Nat) : Bool :=
  (y % 4 == 0 && y % 100 != 0) || y % 400 == 0

def daysInMonth (y m : Nat) : Nat :=
  if m = 2 then (if isLeap y then 29 else 28)
  else if m = 4 ∨ m = 6 ∨ m = 9 ∨ m = 11 then 30 else 31

/-- Days from 0000-03-01 to the given civil date (the standard era-based
civil-calendar algorithm). -/
def daysFromCivil (y m d : Nat) : Nat :=
  let yy := if m ≤ 2 then y - 1 else y
  let era := yy / 400
  let yoe := yy % 400
  let mp := (m + 9) % 12
  let doy := (153 * mp + 2) / 5 + (d - 1)
  let doe := yoe * 365 + yoe / 4 - yoe / 100 + doy
  era * 146097 + doe

/-- Civil date from a day count (inverse of `daysFromCivil`). -/
def civilFromDays (z : Nat) : Nat × Nat × Nat :=
  let era := z / 146097
  let doe := z % 146097
  let yoe := (doe - doe / 1460 + doe / 36524 - doe / 146096) / 365
  let y := yoe + era * 400
  let doy := doe - (365 * yoe + yoe / 4 - yoe / 100)
  let mp := (5 * doy + 2) / 153
  let d := doy - (153 * mp + 2) / 5 + 1
  let m := if mp < 10 then mp + 3 else mp - 9
  (if m ≤ 2 then y + 1 else y, m, d)

def toSeconds (dt : DateTime) : Nat :=
  daysFromCivil dt.year dt.month dt.day * 86400 +
    dt.hour * 3600 + dt.minute * 60 + dt.second

def ofSeconds (s : Nat) : DateTime :=
  let c := civilFromDays (s / 86400)
  let r := s % 86400
  ⟨c.1, c.2.1, c.2.2, r / 3600, r % 3600 / 60, r % 60⟩

/-- Datetime plus a signed minute offset, the model of
`datetime + timedelta(minutes=m)`. -/
def addMinutes (dt : DateTime) (m : Int) : DateTime :=
  ofSeconds ((toSeconds dt : Int) + m * 60).toNat

/-- Day of week, Sunday = 0 (1970-01-01 was a Thursday). -/
def dayOfWeek (y m d : Nat) : Nat :=
  (daysFromCivil y m d + 3) % 7

def lastSundayDay (y m : Nat) : Nat :=
  daysInMonth y m - dayOfWeek y m (daysInMonth y m)

/-- UTC offset of Europe/Rome in minutes at a UTC instant: +120 during EU
summer time (from the last Sunday of March 01:00 UTC to the last Sunday of
October 01:00 UTC), else +60. This is the tz database rule pytz applies for
the years this program processes. -/
def romeOffsetMinutes (dt : DateTime) : Int :=
  let s := toSeconds dt
  let dstStart := toSeconds ⟨dt.year, 3, lastSundayDay dt.year 3, 1, 0, 0⟩
  let dstStop := toSeconds ⟨dt.year, 10, lastSundayDay dt.year 10, 1, 0, 0⟩
  if dstStart ≤ s ∧ s < dstStop then 120 else 60

def digitVal (c : Char) : Nat := c.toNat - 48

/-- Exactly `n` digits, accumulating their value. -/
def readExact : Nat → Nat → List Char → Option (Nat × List Char)
  | 0, acc, cs => some (acc, cs)
  | n + 1, acc, c :: cs =>
    if c.isDigit then readExact n (acc * 10 + digitVal c) cs else none
  | _ + 1, _, [] => none

/-- One or two digits, greedily, as the strptime patterns for %m %d %H %M %S
match them when the next format character is a non-digit literal. -/
def read12 : List Char → Option (Nat × List Char)
  | c :: d :: cs =>
    if c.isDigit then
      (if d.isDigit then some (digitVal c * 10 + digitVal d, cs)
       else some (digitVal c, d :: cs))
    else none
  | [c] => if c.isDigit then some (digitVal c, []) else none
  | [] => none

def expectChar (c : Char) : List Char → Option (List Char)
  | d :: cs => if d = c then some cs else none
  | [] => none

/-- Model of `datetime.strptime(s, %Y-%m-%dT%H:%M:%SZ)` (lines 67-68): %Y is
exactly four digits, the other fields one or two, the literals must match,
the whole string must be consumed, and the `datetime` constructor bounds
(year at least 1, month 1..12, day within the month, hour to 23, minute and
second to 59) must hold; anything else raises (here: `none`). -/
def parseTs (s : String) : Option DateTime := do
  let (y, r1) ← readExact 4 0 s.data
  let r2 ← expectChar '-' r1
  let (mo, r3) ← read12 r2
  let r4 ← expectChar '-' r3
  let (d, r5) ← read12 r4
  let r6 ← expectChar 'T' r5
  let (h, r7) ← read12 r6
  let r8 ← expectChar ':' r7
  let (mi, r9) ← read12 r8
  let r10 ← expectChar ':' r9
  let (sec, r11) ← read12 r10
  let r12 ← expectChar 'Z' r11
  if r12.isEmpty ∧ 1 ≤ y ∧ 1 ≤ mo ∧ mo ≤ 12 ∧ 1 ≤ d ∧ d ≤ daysInMonth y mo ∧
      h ≤ 23 ∧ mi ≤ 59 ∧ sec ≤ 59 then
    some ⟨y, mo, d, h, mi, sec⟩
  else none

/-- JSON values as `response.json()` returns them. -/
inductive Json where
  | null
  | bool (b : Bool)
  | num (n : Int)
  | str (s : String)
  | arr (elems : List Json)
  | obj (fields : List (String × Json))

/-- The Python exceptions the script can raise, by kind. -/
inductive Fault where
  | requestError
  | jsonDecodeError
  | typeError
  | keyError
  | valueError
  | attributeError
  | unknownTzError
  | saveError
deriving DecidableEq

def jLookup (j : Json) (k : String) : Option Json :=
  match j with
  | .obj fs => fs.lookup k
  | _ => none

/-- Python subscript `j[k]` with a string key: KeyError on a dict without the
key, TypeError on any non-dict (strings reject string indices). -/
def pySubscript (j : Json) (k : String) : Except Fault Json :=
  match j with
  | .obj fs =>
    match fs.lookup k with
    | some v => .ok v
    | none => .error .keyError
  | _ => .error .typeError

/-- Python `entry.get("description", "Work Entry")` (line 70): the dict method
with a default; a non-dict has no `.get` and raises AttributeError. -/
def pyGetDesc (j : Json) : Except Fault Json :=
  match j with
  | .obj fs =>
    match fs.lookup "description" with
    | some v => .ok v
    | none => .ok (.str "Work Entry")
  | _ => .error .attributeError

/-- The description a dict entry yields at line 70: the stored value, or the
default "Work Entry". -/
def pyDescD (j : Json) : Json :=
  match jLookup j "description" with
  | some v => v
  | none => .str "Work Entry"

/-- Python `for entry in j` (line 66): a list yields its elements, a dict its
keys (as strings), a string its characters; other JSON scalars raise
TypeError. -/
def pyIter (j : Json) : Except Fault (List Json) :=
  match j with
  | .arr xs => .ok xs
  | .obj fs => .ok (fs.map (fun p => .str p.1))
  | .str s => .ok (s.data.map (fun c => .str (String.mk [c])))
  | _ => .error .typeError

/-- strptime requires a str argument; any other value raises TypeError. -/
def asStr (j : Json) : Except Fault String :=
  match j with
  | .str s => .ok s
  | _ => .error .typeError

def strptimeZ (s : String) : Except Fault DateTime :=
  match parseTs s with
  | some dt => .ok dt
  | none => .error .valueError

/-- An offset-aware datetime: the wall-clock reading together with its UTC
offset in minutes, the model of what `astimezone` returns. -/
structure Zoned where
  wall : DateTime
  offMin : Int
deriving DecidableEq

/-- Model of `naive.replace(tzinfo=pytz.utc).astimezone(tz)`: the naive value
is taken as UTC and shifted to the target offset. -/
def toZoned (off : Int) (utc : DateTime) : Zoned :=
  ⟨addMinutes utc off, off⟩

/-- Offset lookup for `pytz.timezone(tz)`: only Europe/Rome, the sole zone the
script passes, is modelled; an unknown name raises. -/
def tzOffsetE (tz : String) (dt : DateTime) : Except Fault Int :=
  if tz = "Europe/Rome" then .ok (romeOffsetMinutes dt) else .error .unknownTzError

/-- The ambient clock: the true current UTC instant, and the system-local
wall clock that `datetime.now()` actually returns (they agree exactly when
the host runs on UTC). -/
structure Env where
  utcNow : DateTime
  nowLocal : DateTime

/-- The iCalendar event as built in lines 69-74. -/
structure Event where
  summary : Json
  dtstart : Zoned
  dtend : Zoned
  dtstamp : Zoned
  uid : Json

/-- Lines 67-74 for one entry: parse start and end, then build the event.
Subscripts, the `.get`, strptime, and the pytz lookup fault exactly where the
Python expression sequence would. Returns the event together with the parsed
naive start used by the log line. -/
def buildEvent (tz : String) (env : Env) (entry : Json) :
    Except Fault (Event × DateTime) :=
  match pySubscript entry "timeInterval" with
  | .error f => .error f
  | .ok ti =>
  match pySubscript ti "start" with
  | .error f => .error f
  | .ok sRaw =>
  match asStr sRaw with
  | .error f => .error f
  | .ok sStr =>
  match strptimeZ sStr with
  | .error f => .error f
  | .ok sdt =>
  match pySubscript entry "timeInterval" with
  | .error f => .error f
  | .ok ti2 =>
  match pySubscript ti2 "end" with
  | .error f => .error f
  | .ok eRaw =>
  match asStr eRaw with
  | .error f => .error f
  | .ok eStr =>
  match strptimeZ eStr with
  | .error f => .error f
  | .ok edt =>
  match pyGetDesc entry with
  | .error f => .error f
  | .ok desc =>
  match tzOffsetE tz sdt with
  | .error f => .error f
  | .ok soff =>
  match tzOffsetE tz edt with
  | .error f => .error f
  | .ok eoff =>
  match tzOffsetE tz env.nowLocal with
  | .error f => .error f
  | .ok noff =>
  match pySubscript entry "id" with
  | .error f => .error f
  | .ok uidv =>
    .ok ({ summary := desc, dtstart := toZoned soff sdt, dtend := toZoned eoff edt,
           dtstamp := toZoned noff env.nowLocal, uid := uidv }, sdt)

def fmt2 (n : Nat) : String :=
  if n < 10 then "0" ++ toString n else toString n

def fmt4 (n : Nat) : String :=
  if n < 10 then "000" ++ toString n
  else if n < 100 then "00" ++ toString n
  else if n < 1000 then "0" ++ toString n
  else toString n

/-- `start.strftime(%d-%m-%Y)` from line 76. -/
def fmtDMY (dt : DateTime) : String :=
  fmt2 dt.day ++ "-" ++ fmt2 dt.month ++ "-" ++ fmt4 dt.year

/-- `datetime.now().strftime(%Y-%m-%dT%H:%M:%SZ)` from line 85. -/
def fmtZ (dt : DateTime) : String :=
  fmt4 dt.year ++ "-" ++ fmt2 dt.month ++ "-" ++ fmt2 dt.day ++ "T" ++
    fmt2 dt.hour ++ ":" ++ fmt2 dt.minute ++ ":" ++ fmt2 dt.second ++ "Z"

/-- The log lines the script emits: line 25 (info), line 76 (info), line 93
(info), line 95 (error), each with the interpolated values it carries. -/
inductive LogLine where
  | fetching (startPart endPart : String)
  | added (desc : Json) (date : String) (cal : String)
  | rangeAdded (startPart endPart cal : String)
  | errNotFound

def LogLine.isErrorLine : LogLine → Bool
  | .errNotFound => true
  | _ => false

def LogLine.isAddedLine : LogLine → Bool
  | .added _ _ _ => true
  | _ => false

/-- Outcome of lines 67-76 for a single entry: success with the saved event
and its log line; a fault before the save; or a fault after the save was
already attempted (a raising `save_event`, or the KeyError the log f-string
raises at line 76 when the entry has no description). -/
inductive StepResult where
  | okStep (ev : Event) (lg : LogLine)
  | noSaveFault (f : Fault)
  | postSaveFault (ev : Event) (f : Fault)

def StepResult.isOk : StepResult → Bool
  | .okStep _ _ => true
  | _ => false

/-- One iteration of the loop at line 66. `saveOkHere` is whether the remote
`calendar.save_event` call at line 75 succeeds for this attempt; the save is
attempted whenever the event was built. Line 76 then subscripts
entry[description], which raises KeyError when the key is absent. -/
def stepEntry (saveOkHere : Bool) (tz : String) (env : Env) (calName : String)
    (entry : Json) : StepResult :=
  match buildEvent tz env entry with
  | .error f => .noSaveFault f
  | .ok (ev, sdt) =>
    if saveOkHere then
      match pySubscript entry "description" with
      | .error f => .postSaveFault ev f
      | .ok d => .okStep ev (.added d (fmtDMY sdt) calName)
    else .postSaveFault ev .saveError

/-- State of the loop: events whose save was attempted so far (in order), the
info lines logged so far, and the pending fault (the loop stops at the first
one, as the exception propagates uncaught). -/
structure WriterResult where
  saves : List Event
  logs : List LogLine
  fault : Option Fault

/-- The loop of `add_entries_to_calendar` (lines 66-76). The save oracle is
indexed by the number of saves attempted so far. -/
def addEntriesAux (saveOk : Nat → Bool) (tz : String) (env : Env)
    (calName : String) : List Json → WriterResult → WriterResult
  | [], acc => acc
  | entry :: rest, acc =>
    match stepEntry (saveOk acc.saves.length) tz env calName entry with
    | .okStep ev lg =>
      addEntriesAux saveOk tz env calName rest
        ⟨acc.saves ++ [ev], acc.logs ++ [lg], none⟩
    | .noSaveFault f => ⟨acc.saves, acc.logs, some f⟩
    | .postSaveFault ev f => ⟨acc.saves ++ [ev], acc.logs, some f⟩

/-- `add_entries_to_calendar(calendar, time_entries, timezone)` (lines 50-76):
iterate the fetched JSON value as Python would and run the loop. -/
def add_entries_to_calendar (saveOk : Nat → Bool) (calName : String)
    (timeEntries : Json) (timezone : String) (env : Env) : WriterResult :=
  match pyIter timeEntries with
  | .error f => ⟨[], [], some f⟩
  | .ok entries => addEntriesAux saveOk timezone env calName entries ⟨[], [], none⟩

/-- Python `str.lower` restricted to ASCII letters, which covers the calendar
names this program compares. -/
def pyLowerChar (c : Char) : Char :=
  if 'A' ≤ c ∧ c ≤ 'Z' then Char.ofNat (c.toNat + 32) else c

def pyLower (s : String) : String :=
  String.mk (s.data.map pyLowerChar)

/-- `get_calendar` (lines 29-47): scan the principal calendars in order and
return the first whose name matches case-insensitively, else None. -/
def get_calendar (calendars : List String) (calendar_name : String) : Option String :=
  match calendars with
  | [] => none
  | c :: rest =>
    if pyLower c = pyLower calendar_name then some c
    else get_calendar rest calendar_name

/-- What came back from `requests.get`: the status code, and the body as JSON
when `response.json()` can parse it. -/
structure HttpResponse where
  status : Nat
  bodyJson : Option Json

/-- The fetch as observed at the boundary: either `requests.get` itself
raised, or a response arrived. -/
inductive FetchOutcome where
  | requestFault
  | got (resp : HttpResponse)

def startDateStr : String := "2024-01-01T00:00:00Z"

/-- `fetch_time_entries` (lines 20-26): if the request raised, nothing is
logged and the fault propagates; otherwise the info line of line 25 is logged
and `response.json()` either raises or returns the body. The status code is
never consulted. -/
def fetch_time_entries (fo : FetchOutcome) (startDate endDate : String) :
    List LogLine × Except Fault Json :=
  match fo with
  | .requestFault => ([], .error .requestError)
  | .got resp =>
    ([.fetching (startDate.take 10) (endDate.take 10)],
     match resp.bodyJson with
     | none => .error .jsonDecodeError
     | some j => .ok j)

/-- Observable outcome of a whole run of `main`. -/
structure RunResult where
  saves : List Event
  logs : List LogLine
  fault : Option Fault

/-- `main` (lines 79-95): fetch with the hardcoded start date and now as the
end date, locate the calendar named work, and either add the entries (plus
the summary info line of line 93 when no fault occurred) or log the error of
line 95 and finish cleanly. -/
def runMain (fo : FetchOutcome) (calendarNames : List String)
    (saveOk : Nat → Bool) (env : Env) : RunResult :=
  match fetch_time_entries fo startDateStr (fmtZ env.nowLocal) with
  | (ls, .error f) => ⟨[], ls, some f⟩
  | (ls, .ok body) =>
    match get_calendar calendarNames "work" with
    | some cal =>
      let w := add_entries_to_calendar saveOk cal body "Europe/Rome" env
      match w.fault with
      | none =>
        ⟨w.saves,
         ls ++ w.logs ++
           [.rangeAdded (startDateStr.take 10) ((fmtZ env.nowLocal).take 10) "work"],
         none⟩
      | some f => ⟨w.saves, ls ++ w.logs, some f⟩
    | none => ⟨[], ls ++ [.errNotFound], none⟩

/-- Save oracle for runs where every remote save succeeds. -/
def allSavesOk : Nat → Bool := fun _ => true

/-- A record shaped as the Time Entry data model requires: a dict with an id,
and a timeInterval dict whose start and end are strings the strptime format
accepts. The description is optional in the data model. -/
def wellFormedEntry (e : Json) : Bool :=
  match e with
  | .obj fs =>
    (match fs.lookup "timeInterval" with
     | some (.obj ti) =>
       (match ti.lookup "start" with
        | some (.str s) => (parseTs s).isSome
        | _ => false) &&
       (match ti.lookup "end" with
        | some (.str s) => (parseTs s).isSome
        | _ => false)
     | _ => false) &&
    (fs.lookup "id").isSome
  | _ => false

/-- The sample entry of the specification: id abc123, description Coding,
2024-03-01 09:00 to 10:30 UTC. -/
def entryC2 : Json :=
  .obj [("id", .str "abc123"), ("description", .str "Coding"),
        ("timeInterval", .obj [("start", .str "2024-03-01T09:00:00Z"),
                               ("end", .str "2024-03-01T10:30:00Z")])]

/-- A well-formed entry with no description field. -/
def entryNoDesc : Json :=
  .obj [("id", .str "e1"),
        ("timeInterval", .obj [("start", .str "2024-03-01T09:00:00Z"),
                               ("end", .str "2024-03-01T10:00:00Z")])]

/-- An entry whose start timestamp does not parse. -/
def entryBadStart : Json :=
  .obj [("id", .str "bad"), ("description", .str "Broken"),
        ("timeInterval", .obj [("start", .str "oops"),
                               ("end", .str "2024-03-01T10:00:00Z")])]

/-- A concrete clock on a UTC host: 2024-03-01 12:00 UTC. -/
def env0 : Env := ⟨⟨2024, 3, 1, 12, 0, 0⟩, ⟨2024, 3, 1, 12, 0, 0⟩⟩

/-- The same instant on a host whose system timezone is UTC+1: the wall clock
reads 10:00 while the instant is 09:00 UTC. -/
def envShift : Env := ⟨⟨2024, 3, 1, 9, 0, 0⟩, ⟨2024, 3, 1, 10, 0, 0⟩⟩

/-- The event the writer builds from `entryNoDesc` under `env0`. -/
def evNoDesc0 : Event :=
  { summary := .str "Work Entry",
    dtstart := ⟨⟨2024, 3, 1, 10, 0, 0⟩, 60⟩,
    dtend := ⟨⟨2024, 3, 1, 11, 0, 0⟩, 60⟩,
    dtstamp := ⟨⟨2024, 3, 1, 13, 0, 0⟩, 60⟩,
    uid := .str "e1" }

/-- The event the writer builds from `entryC2` under `env0`. -/
def evC2at0 : Event :=
  { summary := .str "Coding",
    dtstart := ⟨⟨2024, 3, 1, 10, 0, 0⟩, 60⟩,
    dtend := ⟨⟨2024, 3, 1, 11, 30, 0⟩, 60⟩,
    dtstamp := ⟨⟨2024, 3, 1, 13, 0, 0⟩, 60⟩,
    uid := .str "abc123" }

/-- Helper: a successful `entry.get` call returns the stored description or
the default. -/
theorem pyGetDesc_ok {e d : Json} (h : pyGetDesc e = .ok d) : d = pyDescD e := by
  cases e <;> simp [pyGetDesc, pyDescD, jLookup] at h ⊢
  rcases hl : List.lookup "description" _ with _ | v <;> rw [hl] at h <;> simp_all

/-- Helper: the Europe/Rome offset lookup never faults and returns the rule
offset. -/
theorem tzOffsetE_rome {dt : DateTime} {o : Int}
    (h : tzOffsetE "Europe/Rome" dt = .ok o) : o = romeOffsetMinutes dt := by
  simp [tzOffsetE] at h
  exact h.symm

/-- Helper: whenever lines 67-74 build an event without faulting, its summary
is the description with the "Work Entry" default (line 70) and its dtstamp is
`datetime.now()` reinterpreted as UTC and shifted to Europe/Rome (line 73). -/
theorem buildEvent_ok_rome {env : Env} {e : Json} {ev : Event} {sdt : DateTime}
    (h : buildEvent "Europe/Rome" env e = .ok (ev, sdt)) :
    ev.summary = pyDescD e ∧
    ev.dtstamp = toZoned (romeOffsetMinutes env.nowLocal) env.nowLocal := by
  unfold buildEvent at h
  repeat' split at h
  all_goals try exact Except.noConfusion h
  rw [Except.ok.injEq, Prod.mk.injEq] at h
  obtain ⟨hev, hsdt⟩ := h
  subst hev
  refine ⟨pyGetDesc_ok (by assumption), ?_⟩
  have ho := @tzOffsetE_rome env.nowLocal _ (by assumption)
  simp [ho]

/-- C1: evaluation at the failing input. Two records shaped exactly as the
Time Entry data model requires (the first without the optional description)
are passed to the writer with every save succeeding, yet only one save is
attempted, not two: after saving the first entry the log f-string of line 76
subscripts its absent description and raises KeyError, aborting the loop
before the second entry is reached. -/
theorem claimC1_missing_description_aborts :
    ([entryNoDesc, entryC2].all wellFormedEntry = true) ∧
    (add_entries_to_calendar allSavesOk "work" (.arr [entryNoDesc, entryC2])
        "Europe/Rome" env0).saves.length = 1 ∧
    (add_entries_to_calendar allSavesOk "work" (.arr [entryNoDesc, entryC2])
        "Europe/Rome" env0).fault = some .keyError :=
  ⟨by decide, rfl, rfl⟩

/-- C2: on the specification's sample entry (id abc123, description Coding,
2024-03-01 09:00 to 10:30 UTC) under timezone Europe/Rome, the writer
attempts exactly one save whose event has dtstart 2024-03-01 10:00 at offset
+01:00, dtend 2024-03-01 11:30 at offset +01:00, summary "Coding" and uid
"abc123", for every ambient clock. -/
theorem claimC2_event_conversion (env : Env) :
    (add_entries_to_calendar allSavesOk "work" (.arr [entryC2])
        "Europe/Rome" env).saves =
      [{ summary := .str "Coding",
         dtstart := ⟨⟨2024, 3, 1, 10, 0, 0⟩, 60⟩,
         dtend := ⟨⟨2024, 3, 1, 11, 30, 0⟩, 60⟩,
         dtstamp := toZoned (romeOffsetMinutes env.nowLocal) env.nowLocal,
         uid := .str "abc123" }] := rfl

/-- C3: whenever the fetch returned a body but no calendar name matches
"work", the run writes no events, logs exactly one error line (and no added
lines), and finishes without a fault. -/
theorem claimC3_calendar_not_found (status : Nat) (body : Json)
    (cals : List String) (saveOk : Nat → Bool) (env : Env)
    (h : get_calendar cals "work" = none) :
    (runMain (.got ⟨status, some body⟩) cals saveOk env).saves = [] ∧
    (runMain (.got ⟨status, some body⟩) cals saveOk env).logs.filter
      LogLine.isErrorLine = [.errNotFound] ∧
    (runMain (.got ⟨status, some body⟩) cals saveOk env).logs.filter
      LogLine.isAddedLine = [] ∧
    (runMain (.got ⟨status, some body⟩) cals saveOk env).fault = none := by
  simp [runMain, fetch_time_entries, h, List.filter, LogLine.isErrorLine,
        LogLine.isAddedLine]

/-- C3 witness: a concrete run against a server listing only a calendar named
Personal. -/
theorem claimC3_calendar_not_found_w :
    (runMain (.got ⟨200, some (.arr [])⟩) ["Personal"] allSavesOk env0).saves = [] ∧
    (runMain (.got ⟨200, some (.arr [])⟩) ["Personal"] allSavesOk env0).logs.filter
      LogLine.isErrorLine = [.errNotFound] ∧
    (runMain (.got ⟨200, some (.arr [])⟩) ["Personal"] allSavesOk env0).logs.filter
      LogLine.isAddedLine = [] ∧
    (runMain (.got ⟨200, some (.arr [])⟩) ["Personal"] allSavesOk env0).fault = none :=
  claimC3_calendar_not_found 200 (.arr []) ["Personal"] allSavesOk env0 (by decide)

/-- C4: the locator returns the first calendar in enumeration order whose
lowercased name equals the lowercased request (the behaviour of
`List.find?`), returns none exactly when no name matches, and in particular
a request for "Work" matches a calendar named "work". -/
theorem claimC4_case_insensitive_first_match :
    get_calendar ["work"] "Work" = some "work" ∧
    ∀ (cals : List String) (name : String),
      get_calendar cals name = cals.find? (fun c => pyLower c == pyLower name) ∧
      (get_calendar cals name = none ↔ ∀ c ∈ cals, pyLower c ≠ pyLower name) := by
  have key : ∀ (cals : List String) (name : String),
      get_calendar cals name = cals.find? (fun c => pyLower c == pyLower name) := by
    intro cals name
    induction cals with
    | nil => rfl
    | cons c rest ih =>
      by_cases hc : pyLower c = pyLower name
      · simp [get_calendar, hc, List.find?]
      · have hb : (pyLower c == pyLower name) = false := by
          rw [beq_eq_false_iff_ne]
          exact hc
        simp [get_calendar, hc, List.find?, hb, ih]
  refine ⟨by decide, fun cals name => ⟨key cals name, ?_⟩⟩
  rw [key, List.find?_eq_none]
  simp

/-- C5: whenever the writer builds an event from an entry that has no
description field, the summary is the default "Work Entry". -/
theorem claimC5_default_summary (env : Env) (e : Json) (ev : Event) (sdt : DateTime)
    (h1 : buildEvent "Europe/Rome" env e = .ok (ev, sdt))
    (h2 : jLookup e "description" = none) :
    ev.summary = .str "Work Entry" := by
  rw [(buildEvent_ok_rome h1).1, pyDescD, h2]

/-- C5 witness: the event built from the concrete description-less entry. -/
theorem claimC5_default_summary_w : evNoDesc0.summary = .str "Work Entry" :=
  claimC5_default_summary env0 entryNoDesc evNoDesc0 ⟨2024, 3, 1, 9, 0, 0⟩ rfl rfl

/-- C6: evaluation at the failing input. A single well-formed entry without a
description is saved (uid e1 reaches the calendar), yet the writer emits zero
info log lines for it and faults with KeyError: the f-string of line 76 reads
entry[description] by subscript although line 70 explicitly supports the
missing key with a default. -/
theorem claimC6_missing_description_no_log :
    (add_entries_to_calendar allSavesOk "work" (.arr [entryNoDesc])
        "Europe/Rome" env0).saves.map Event.uid = [.str "e1"] ∧
    (add_entries_to_calendar allSavesOk "work" (.arr [entryNoDesc])
        "Europe/Rome" env0).logs = [] ∧
    (add_entries_to_calendar allSavesOk "work" (.arr [entryNoDesc])
        "Europe/Rome" env0).fault = some .keyError :=
  ⟨rfl, rfl, rfl⟩

/-- C7 counterexample: on a host whose system timezone is UTC+1 at the true
instant 2024-03-01 09:00 UTC, the produced dtstamp is 11:00 at offset +01:00
(the wall clock 10:00 relabelled as UTC and shifted), while the creation
instant expressed in Europe/Rome is 10:00 at offset +01:00 — so dtstamp is
not the creation time converted from UTC to the configured timezone. -/
theorem claimC7_dtstamp_counterexample :
    (add_entries_to_calendar allSavesOk "work" (.arr [entryC2])
        "Europe/Rome" envShift).saves.map Event.dtstamp =
      [⟨⟨2024, 3, 1, 11, 0, 0⟩, 60⟩] ∧
    (⟨⟨2024, 3, 1, 11, 0, 0⟩, 60⟩ : Zoned) ≠
      toZoned (romeOffsetMinutes envShift.utcNow) envShift.utcNow :=
  ⟨rfl, by decide⟩

/-- C7 amended: dtstamp is `datetime.now()` — the system-local wall clock —
reinterpreted as UTC and shifted to Europe/Rome; when the host clock runs on
UTC (wall clock equal to the true UTC instant), this is exactly the event
creation instant converted from UTC to the configured timezone. -/
theorem claimC7_dtstamp_amended (env : Env) (e : Json) (ev : Event) (sdt : DateTime)
    (h1 : buildEvent "Europe/Rome" env e = .ok (ev, sdt))
    (h2 : env.nowLocal = env.utcNow) :
    ev.dtstamp = toZoned (romeOffsetMinutes env.utcNow) env.utcNow := by
  rw [(buildEvent_ok_rome h1).2, h2]

/-- C7 witness: the amended statement at the concrete UTC-host clock. -/
theorem claimC7_dtstamp_amended_w :
    evC2at0.dtstamp = toZoned (romeOffsetMinutes env0.utcNow) env0.utcNow :=
  claimC7_dtstamp_amended env0 entryC2 evC2at0 ⟨2024, 3, 1, 9, 0, 0⟩ rfl rfl

/-- Helper: a fault-free prefix of the loop composes with the rest of the
entry sequence. -/
theorem addEntriesAux_append (saveOk : Nat → Bool) (tz : String) (env : Env)
    (cal : String) (l1 l2 : List Json) (acc : WriterResult)
    (h : (addEntriesAux saveOk tz env cal l1 acc).fault = none) :
    addEntriesAux saveOk tz env cal (l1 ++ l2) acc =
      addEntriesAux saveOk tz env cal l2 (addEntriesAux saveOk tz env cal l1 acc) := by
  induction l1 generalizing acc with
  | nil => rfl
  | cons e t ih =>
    simp only [List.cons_append, addEntriesAux] at h ⊢
    rcases hs : stepEntry (saveOk acc.saves.length) tz env cal e with
      ⟨ev, lg⟩ | ⟨f⟩ | ⟨ev, f⟩
    · simp only [hs] at h ⊢
      exact ih _ h
    · simp only [hs] at h
      exact Option.noConfusion h
    · simp only [hs] at h
      exact Option.noConfusion h

/-- C8: if the entries before `e` process cleanly and processing `e` faults
(malformed timestamp, missing field, or a failing save), then the run over
pre ++ e :: post equals the run over pre ++ [e] — the entries after `e` are
never touched, with no skip-and-continue — the fault propagates, and the
saves attempted are exactly those of the clean prefix plus at most the one
attempt for `e` (events already persisted stay written; there is no
rollback operation in the loop at all). -/
theorem claimC8_fault_aborts_rest (saveOk : Nat → Bool) (tz : String) (env : Env)
    (cal : String) (pre : List Json) (e : Json) (post : List Json)
    (h1 : (addEntriesAux saveOk tz env cal pre ⟨[], [], none⟩).fault = none)
    (h2 : (stepEntry
        (saveOk (addEntriesAux saveOk tz env cal pre ⟨[], [], none⟩).saves.length)
        tz env cal e).isOk = false) :
    addEntriesAux saveOk tz env cal (pre ++ e :: post) ⟨[], [], none⟩ =
      addEntriesAux saveOk tz env cal (pre ++ [e]) ⟨[], [], none⟩ ∧
    (addEntriesAux saveOk tz env cal (pre ++ e :: post) ⟨[], [], none⟩).fault ≠ none ∧
    ∃ extra,
      (addEntriesAux saveOk tz env cal (pre ++ e :: post) ⟨[], [], none⟩).saves =
        (addEntriesAux saveOk tz env cal pre ⟨[], [], none⟩).saves ++ extra ∧
      extra.length ≤ 1 := by
  rw [addEntriesAux_append saveOk tz env cal pre (e :: post) _ h1,
      addEntriesAux_append saveOk tz env cal pre [e] _ h1]
  rcases hs : stepEntry
      (saveOk (addEntriesAux saveOk tz env cal pre ⟨[], [], none⟩).saves.length)
      tz env cal e with ⟨ev, lg⟩ | ⟨f⟩ | ⟨ev, f⟩
  · rw [hs] at h2
    simp [StepResult.isOk] at h2
  · simp only [addEntriesAux, hs]
    refine ⟨trivial, by simp, ⟨[], by simp, by simp⟩⟩
  · simp only [addEntriesAux, hs]
    refine ⟨trivial, by simp, ⟨[ev], by simp, by simp⟩⟩

/-- C8 witness: a clean first entry, then an entry whose start timestamp does
not parse; the fault propagates out of the loop. -/
theorem claimC8_fault_aborts_rest_w :
    (addEntriesAux allSavesOk "Europe/Rome" env0 "work"
        ([entryC2] ++ entryBadStart :: [entryNoDesc]) ⟨[], [], none⟩).fault ≠ none :=
  (claimC8_fault_aborts_rest allSavesOk "Europe/Rome" env0 "work"
    [entryC2] entryBadStart [entryNoDesc] (by decide) (by decide)).2.1

/-- C9: when the fetch faults — the request itself raises, or the body does
not parse as JSON — the run writes no events and logs no added line; and the
response status is never consulted: a run on any status with a parseable body
is identical to the same run with status 200, so a non-success response still
has its body returned and used. -/
theorem claimC9_fetch_fault_no_writes (cals : List String) (saveOk : Nat → Bool)
    (env : Env) :
    ((runMain .requestFault cals saveOk env).saves = [] ∧
     (runMain .requestFault cals saveOk env).logs.filter LogLine.isAddedLine = []) ∧
    (∀ status : Nat,
      (runMain (.got ⟨status, none⟩) cals saveOk env).saves = [] ∧
      (runMain (.got ⟨status, none⟩) cals saveOk env).logs.filter
        LogLine.isAddedLine = []) ∧
    (∀ (status : Nat) (body : Json),
      runMain (.got ⟨status, some body⟩) cals saveOk env =
        runMain (.got ⟨200, some body⟩) cals saveOk env) :=
  ⟨⟨rfl, rfl⟩, fun _ => ⟨rfl, rfl⟩, fun _ _ => rfl⟩

/-- C10: when the parsed body is a nonempty JSON mapping (an API error
envelope, say) and a calendar is found, the writer iterates the mapping keys
and the first key — a string — faults with TypeError at the
entry[timeInterval] subscript before any save: no events are written and no
added line is logged. -/
theorem claimC10_mapping_body_faults (fields : List (String × Json)) (status : Nat)
    (cals : List String) (cal : String) (saveOk : Nat → Bool) (env : Env)
    (h1 : fields.isEmpty = false) (h2 : get_calendar cals "work" = some cal) :
    (runMain (.got ⟨status, some (.obj fields)⟩) cals saveOk env).saves = [] ∧
    (runMain (.got ⟨status, some (.obj fields)⟩) cals saveOk env).logs.filter
      LogLine.isAddedLine = [] ∧
    (runMain (.got ⟨status, some (.obj fields)⟩) cals saveOk env).fault =
      some .typeError := by
  cases fields with
  | nil => simp [List.isEmpty] at h1
  | cons f rest =>
    obtain ⟨k, v⟩ := f
    simp [runMain, fetch_time_entries, h2, add_entries_to_calendar, pyIter,
          addEntriesAux, stepEntry, buildEvent, pySubscript, List.filter,
          LogLine.isAddedLine]

/-- C10 witness: a 404 envelope body against an existing work calendar. -/
theorem claimC10_mapping_body_faults_w :
    (runMain (.got ⟨404, some (.obj [("message", .str "not found")])⟩)
        ["work"] allSavesOk env0).fault = some .typeError :=
  (claimC10_mapping_body_faults [("message", .str "not found")] 404
    ["work"] "work" allSavesOk env0 rfl (by decide)).2.2

end CalendarSyncer
